import Mathlib

/-!
Shallow embedding of the leaderboard engine in `src/app/page.tsx`
(Tier Classification & Stats Aggregation Engine).

Conventions of the embedding:
* JavaScript numbers that hold ELO ratings are embedded as `Int`
  (ratings are integers in the data model); counters are `Nat`.
* Optional record fields (`total_wins?`, ...) are `Option Nat`.
* The JS idiom `x || d` applied to a number is `if x = 0 then d else x`
  (0 is the only falsy integer once the field is present).
* `Array.prototype.sort(cmp)` is embedded as `List.mergeSort` with
  `le a b := (cmp a b ≤ 0)`, which is the ECMAScript-mandated stable
  sort for a consistent comparator.
* The percentile fractions 0.15 / 0.3 / 0.5 / 0.75 are embedded as
  exact rationals `k/100`, so `Math.floor(p * N)` is `(k * N) / 100`
  in natural-number division.
* React state updates are embedded as explicit state passing: a fetch
  cycle is a function from the previous `AppState` (plus the response,
  `Option`-valued to model success/failure) to the next `AppState`.
-/

/-- Tier labels, `page.tsx` line 39: `type Tier = "S" | "A" | "B" | "C" | "D" | "E"`. -/
inductive Tier where
  | S | A | B | C | D | E
deriving Repr, DecidableEq

/-- `ExtendedPlayer` (page.tsx lines 8-16): `Player` plus derived
`matches` and the optional lifetime counters. -/
structure ExtendedPlayer where
  id : Int
  name : String
  display_name : Option String
  elo : Int
  total_wins : Option Nat
  total_losses : Option Nat
  total_kos : Option Nat
  total_falls : Option Nat
  total_sds : Option Nat
  «matches» : Nat
deriving Repr, DecidableEq

/-- `MatchParticipant` (page.tsx lines 19-30). -/
structure MatchParticipant where
  id : Int
  player : Int
  player_name : String
  player_display_name : Option String
  smash_character : String
  is_cpu : Bool
  total_kos : Nat
  total_falls : Nat
  total_sds : Nat
  has_won : Bool
deriving Repr, DecidableEq

/-- `Match` (page.tsx lines 33-37). -/
structure GameMatch where
  id : Int
  created_at : String
  participants : List MatchParticipant
deriving Repr, DecidableEq

/-- The threshold record returned by `calculateTierThresholds`. -/
structure TierThresholds where
  S : Int
  A : Int
  B : Int
  C : Int
  D : Int
deriving Repr, DecidableEq

/-- JS `v || d` on a number `v`: `0` is falsy, every other integer truthy. -/
def jsOr (v d : Int) : Int := if v = 0 then d else v

/-- Placeholder for an out-of-bounds JS array access; every access the
engine performs is in bounds, so this value never surfaces. -/
def dummyPlayer : ExtendedPlayer :=
  ⟨0, "", none, 0, none, none, none, none, none, 0⟩

/-- `getPlayerAtPercentile` (page.tsx lines 138-144):
`sortedPlayers[Math.min(length - 1, Math.floor(percentile * totalPlayers))]`.
The percentile is passed as its numerator over 100. -/
def getPlayerAtPercentile (sorted : List ExtendedPlayer) (pctNum : Nat) : ExtendedPlayer :=
  sorted.getD (min (sorted.length - 1) (pctNum * sorted.length / 100)) dummyPlayer

/-- `calculateTierThresholds` (page.tsx lines 121-153). The argument is the
ELO-descending player list, exactly as at the call site (line 272).
Tier percentages (lines 129-136): `S: 0.15, A: 0.3, B: 0.5, C: 0.75`
(the `D: 0.9` entry is never read). Each lookup falls back to the fixed
default via `|| d` (lines 146-152). -/
def calculateTierThresholds (sortedPlayers : List ExtendedPlayer) : TierThresholds :=
  if sortedPlayers.length = 0 then
    ⟨2000, 1800, 1600, 1400, 1200⟩
  else
    { S := jsOr ((sortedPlayers.headD dummyPlayer).elo) 2000
      A := jsOr (getPlayerAtPercentile sortedPlayers 15).elo 1800
      B := jsOr (getPlayerAtPercentile sortedPlayers 30).elo 1600
      C := jsOr (getPlayerAtPercentile sortedPlayers 50).elo 1400
      D := jsOr (getPlayerAtPercentile sortedPlayers 75).elo 1200 }

/-- `getTier` (page.tsx lines 256-266): first threshold the ELO meets,
checked in the order S, A, B, C, D, with E the catch-all. -/
def getTier (elo : Int) (tierThresholds : TierThresholds) : Tier :=
  if elo ≥ tierThresholds.S then .S
  else if elo ≥ tierThresholds.A then .A
  else if elo ≥ tierThresholds.B then .B
  else if elo ≥ tierThresholds.C then .C
  else if elo ≥ tierThresholds.D then .D
  else .E

/-- `sortedPlayers` (page.tsx line 269):
`[...players].sort((a, b) => b.elo - a.elo)` — a stable sort that orders
`a` before `b` exactly when `b.elo - a.elo ≤ 0`. -/
def sortPlayers (players : List ExtendedPlayer) : List ExtendedPlayer :=
  players.mergeSort (fun a b => decide (b.elo ≤ a.elo))

/-! ### StatsRollup: derived per-player fields -/

/-- JS `x || 0` on an optional counter: missing or 0 becomes 0. -/
def cnt (v : Option Nat) : Nat := v.getD 0

/-- The `matches` counter attached while processing the `/players`
response (page.tsx lines 209-212):
`(player.total_wins || 0) + (player.total_losses || 0)`. -/
def deriveMatches (p : ExtendedPlayer) : Nat :=
  cnt p.total_wins + cnt p.total_losses

/-- `winRate` (page.tsx lines 1129-1138) as the underlying ratio:
the guard is `player.total_wins && player.total_wins + (player.total_losses || 0) > 0`
(a missing or zero `total_wins` is falsy), else the displayed rate is `"0.0"`.
The view multiplies by 100 and formats; the ratio is embedded in `ℚ`. -/
def winRate (p : ExtendedPlayer) : ℚ :=
  if p.total_wins.getD 0 ≠ 0 ∧ p.total_wins.getD 0 + cnt p.total_losses > 0 then
    (p.total_wins.getD 0 : ℚ) / ((p.total_wins.getD 0 : ℚ) + (cnt p.total_losses : ℚ))
  else 0

/-- K/D ratio (page.tsx lines 1284-1293):
`(total_kos || 0) > 0 && (total_falls || 0) + (total_sds || 0) > 0`
guards `kos / (falls + sds)`, else `"0.00"`. Embedded in `ℚ`. -/
def kdRatio (p : ExtendedPlayer) : ℚ :=
  if cnt p.total_kos > 0 ∧ cnt p.total_falls + cnt p.total_sds > 0 then
    (cnt p.total_kos : ℚ) / ((cnt p.total_falls : ℚ) + (cnt p.total_sds : ℚ))
  else 0

/-! ### LeaderboardView: tier buckets and match history ordering -/

/-- `tierList` (page.tsx lines 323-335): start from six empty buckets and
`forEach` over the ranked players, pushing each onto the bucket of its
tier. Embedded as a fold producing the bucket map. -/
def tierList (rankedPlayers : List ExtendedPlayer) (tierThresholds : TierThresholds) :
    Tier → List ExtendedPlayer :=
  rankedPlayers.foldl
    (fun buckets p => fun t =>
      if getTier p.elo tierThresholds = t then buckets t ++ [p] else buckets t)
    (fun _ => [])

/-- The match-history comparator (page.tsx lines 894-900):
`-1` when `a.has_won && !b.has_won`, `1` when `!a.has_won && b.has_won`,
else `0`. `a` may come before `b` exactly when the comparator is `≤ 0`. -/
def winnersFirstLe (a b : MatchParticipant) : Bool :=
  !(!a.has_won && b.has_won)

/-- `match.participants.sort(comparator)` (page.tsx lines 894-900),
embedded as the stable sort under `winnersFirstLe`. -/
def sortParticipants (participants : List MatchParticipant) : List MatchParticipant :=
  participants.mergeSort winnersFirstLe

/-- `matches.slice(0, 20)` (page.tsx line 893): the matches the history
view renders. -/
def displayedMatches (ms : List GameMatch) : List GameMatch :=
  ms.take 20

/-! ### RefreshScheduler: live model, fetch cycles, countdown -/

/-- The component state relevant to the refresh loop (page.tsx lines 84-93). -/
structure AppState where
  players : List ExtendedPlayer
  gameMatches : List GameMatch
  loading : Bool
  error : Option String
  lastUpdated : Option Nat
  refreshing : Bool
  countdown : Int
deriving Repr, DecidableEq

/-- The raw `/players` response rows (page.tsx lines 197-206). -/
structure RawPlayer where
  id : Int
  name : String
  display_name : Option String
  elo : Int
  created_at : String
  main_character : Option String
  total_wins : Option Nat
  total_losses : Option Nat
deriving Repr, DecidableEq

/-- `data.map(player => ({...player, matches: (total_wins||0)+(total_losses||0)}))`
(page.tsx lines 209-212). -/
def processPlayer (p : RawPlayer) : ExtendedPlayer :=
  { id := p.id
    name := p.name
    display_name := p.display_name
    elo := p.elo
    total_wins := p.total_wins
    total_losses := p.total_losses
    total_kos := none
    total_falls := none
    total_sds := none
    «matches» := cnt p.total_wins + cnt p.total_losses }

/-- `fetchPlayers` (page.tsx lines 184-239) as a state transformer.
`response = none` models a transport failure or non-ok response (the
`throw`/`catch` path); `some data` models a parsed 200 response.
The effects in order: set `loading`/`refreshing`, clear `error`; on
success store the processed players and `lastUpdated`; on failure set
the error message; finally clear `loading`/`refreshing`. -/
def fetchPlayers (isBackgroundRefresh : Bool) (response : Option (List RawPlayer))
    (now : Nat) (s : AppState) : AppState :=
  let s1 :=
    if !isBackgroundRefresh then { s with loading := true }
    else { s with refreshing := true }
  let s2 := { s1 with error := none }
  let s3 :=
    match response with
    | some data =>
        { s2 with players := data.map processPlayer, lastUpdated := some now }
    | none =>
        { s2 with error := some "Failed to load players. Please try again later." }
  if !isBackgroundRefresh then { s3 with loading := false }
  else { s3 with refreshing := false }

/-- `fetchMatches` (page.tsx lines 241-253) as a state transformer: on
success replace the match list; on failure only log — no error state. -/
def fetchMatches (response : Option (List GameMatch)) (s : AppState) : AppState :=
  match response with
  | some data => { s with gameMatches := data }
  | none => s

/-- One tick of the countdown interval (page.tsx lines 168-175):
`prev <= 1 ? 30 : prev - 1`. -/
def countdownTick (prev : Int) : Int :=
  if prev ≤ 1 then 30 else prev - 1

/-- The `setCountdown(30)` in the 30-second refresh interval
(page.tsx lines 161-165); it runs after the fetches are *started* and
does not inspect their outcome. -/
def refreshReset (fetchSucceeded : Bool) (prev : Int) : Int := 30

/-- Events that can change the countdown after mount. -/
inductive CountdownEvent where
  | second
  | refresh (fetchSucceeded : Bool)
deriving Repr, DecidableEq

/-- Countdown evolution from one event. -/
def countdownStep (v : Int) : CountdownEvent → Int
  | .second => countdownTick v
  | .refresh ok => refreshReset ok v

/-- Countdown value after a sequence of events, from the initial
`useState<number>(30)` (page.tsx line 93). -/
def countdownRun (events : List CountdownEvent) : Int :=
  events.foldl countdownStep 30

/-! ### Helper lemmas -/

/-- The countdown invariant `1 ≤ v ≤ 30` is preserved by every event. -/
theorem countdown_foldl_invariant (events : List CountdownEvent) :
    ∀ v : Int, 1 ≤ v → v ≤ 30 →
      1 ≤ events.foldl countdownStep v ∧ events.foldl countdownStep v ≤ 30 := by
  induction events with
  | nil => intro v h1 h30; exact ⟨h1, h30⟩
  | cons e rest ih =>
      intro v h1 h30
      cases e with
      | second =>
          simp only [List.foldl_cons, countdownStep, countdownTick]
          split
          · exact ih 30 (by omega) (by omega)
          · exact ih (v - 1) (by omega) (by omega)
      | refresh ok =>
          simp only [List.foldl_cons, countdownStep, refreshReset]
          exact ih 30 (by omega) (by omega)

/-! ### Claim theorems -/

/-- C8: for the empty player population, `calculateTierThresholds` returns
exactly the fixed defaults `S=2000, A=1800, B=1600, C=1400, D=1200`. -/
theorem thresholds_empty_defaults :
    calculateTierThresholds [] = ⟨2000, 1800, 1600, 1400, 1200⟩ := by
  rfl

/-- C4: for every player record, with missing counters treated as 0,
`matches = wins + losses`; `win_rate = wins / (wins + losses)` when the
denominator is positive and 0 otherwise; `kd_ratio = kos / (falls + sds)`
when `kos > 0` and the denominator is positive, and 0 otherwise. The
three derived values are total functions of the record (defined for every
combination of missing fields), which is the embedded form of
"never `NaN`/undefined". -/
theorem statsRollup_derived_fields (p : ExtendedPlayer) :
    deriveMatches p = cnt p.total_wins + cnt p.total_losses
    ∧ winRate p =
        (if 0 < cnt p.total_wins + cnt p.total_losses then
          (cnt p.total_wins : ℚ) / ((cnt p.total_wins : ℚ) + (cnt p.total_losses : ℚ))
        else 0)
    ∧ kdRatio p =
        (if 0 < cnt p.total_kos ∧ 0 < cnt p.total_falls + cnt p.total_sds then
          (cnt p.total_kos : ℚ) / ((cnt p.total_falls : ℚ) + (cnt p.total_sds : ℚ))
        else 0) := by
  refine ⟨rfl, ?_, rfl⟩
  unfold winRate cnt
  by_cases hw : p.total_wins.getD 0 = 0
  · simp [hw]
  · have hpos : 0 < p.total_wins.getD 0 + (p.total_losses.getD 0) := by omega
    simp [hw, hpos]

/-- C5: a fetch cycle for `/players` that fails leaves the player list
untouched and ends with the (non-null) error message, while a successful
cycle ends with a null error and the player list wholly replaced by the
processed response data. -/
theorem fetchPlayers_failure_and_success (isBackgroundRefresh : Bool) (now : Nat)
    (s : AppState) (data : List RawPlayer) :
    (fetchPlayers isBackgroundRefresh none now s).players = s.players
    ∧ (fetchPlayers isBackgroundRefresh none now s).error =
        some "Failed to load players. Please try again later."
    ∧ (fetchPlayers isBackgroundRefresh (some data) now s).error = none
    ∧ (fetchPlayers isBackgroundRefresh (some data) now s).players =
        data.map processPlayer := by
  cases isBackgroundRefresh <;>
    exact ⟨rfl, rfl, rfl, rfl⟩

/-- C9: the match history view renders exactly the first 20 fetched
matches: position `j` of the rendered list shows match `j` of the fetched
list when `j < 20`, and nothing is rendered at or beyond index 20. -/
theorem displayedMatches_first_twenty (ms : List GameMatch) (j : Nat) :
    (displayedMatches ms).length = min 20 ms.length
    ∧ (displayedMatches ms)[j]? = (if j < 20 then ms[j]? else none) := by
  refine ⟨by simp [displayedMatches], ?_⟩
  simp [displayedMatches, List.getElem?_take]

/-- C10: the countdown starts at 30; a one-second tick maps `v` to `v - 1`
when `v > 1` and to 30 when `v ≤ 1`; the 30-second refresh tick resets it
to 30 irrespective of whether the fetch succeeded; consequently after any
event sequence the countdown lies in `[1, 30]` and is never 0. -/
theorem countdown_invariant (events : List CountdownEvent) (ok : Bool) (v : Int) :
    countdownRun [] = 30
    ∧ 1 ≤ countdownRun events
    ∧ countdownRun events ≤ 30
    ∧ countdownRun events ≠ 0
    ∧ refreshReset ok v = 30
    ∧ countdownTick v = (if 1 < v then v - 1 else 30) := by
  obtain ⟨h1, h30⟩ := countdown_foldl_invariant events 30 (by omega) (by omega)
  refine ⟨rfl, h1, h30, by unfold countdownRun; omega, rfl, ?_⟩
  unfold countdownTick
  rcases lt_or_le 1 v with h | h
  · rw [if_neg (by omega), if_pos h]
  · rw [if_pos (by omega), if_neg (by omega)]

/-! ### C6: winners-first ordering of match participants -/

/-- `winnersFirstLe` is transitive. -/
theorem winnersFirstLe_trans (a b c : MatchParticipant) :
    winnersFirstLe a b → winnersFirstLe b c → winnersFirstLe a c := by
  unfold winnersFirstLe
  cases ha : a.has_won <;> cases hb : b.has_won <;> cases hc : c.has_won <;> simp

/-- `winnersFirstLe` is total. -/
theorem winnersFirstLe_total (a b : MatchParticipant) :
    winnersFirstLe a b || winnersFirstLe b a := by
  unfold winnersFirstLe
  cases a.has_won <;> cases b.has_won <;> simp

/-- Any participant relates to anything after a winner, and anything
relates to a loser. -/
theorem winnersFirstLe_of_won {a : MatchParticipant} (b : MatchParticipant)
    (h : a.has_won = true) : winnersFirstLe a b := by
  simp [winnersFirstLe, h]

theorem winnersFirstLe_of_lost (a : MatchParticipant) {b : MatchParticipant}
    (h : b.has_won = false) : winnersFirstLe a b := by
  simp [winnersFirstLe, h]

/-- A list that is pairwise `winnersFirstLe` is its winners followed by
its losers. -/
theorem eq_filter_append_of_pairwise :
    ∀ l : List MatchParticipant, l.Pairwise (winnersFirstLe · ·) →
      l = l.filter (·.has_won) ++ l.filter (fun p => !p.has_won)
  | [], _ => rfl
  | x :: xs, h => by
    obtain ⟨hx, hxs⟩ := List.pairwise_cons.mp h
    cases hw : x.has_won with
    | true =>
        have ih := eq_filter_append_of_pairwise xs hxs
        have h1 : (x :: xs).filter (·.has_won) = x :: xs.filter (·.has_won) := by
          simp [List.filter_cons, hw]
        have h2 : (x :: xs).filter (fun p => !p.has_won) =
            xs.filter (fun p => !p.has_won) := by
          simp [List.filter_cons, hw]
        rw [h1, h2, List.cons_append]
        exact congrArg (x :: ·) ih
    | false =>
        have hall : ∀ b ∈ xs, b.has_won = false := by
          intro b hb
          have := hx b hb
          simp [winnersFirstLe, hw] at this
          simpa using this
        have hnil : xs.filter (·.has_won) = [] :=
          List.filter_eq_nil_iff.mpr (by intro a ha; simp [hall a ha])
        have hself : xs.filter (fun p => !p.has_won) = xs :=
          List.filter_eq_self.mpr (by intro a ha; simp [hall a ha])
        have hnilx : (x :: xs).filter (·.has_won) = [] :=
          List.filter_eq_nil_iff.mpr
            (by intro a ha; rcases List.mem_cons.mp ha with h | h
                · simp [h, hw]
                · simp [hall a h])
        rw [hnilx, List.nil_append, List.filter_cons, hself]
        simp [hw]

/-- The sorted participant list is exactly the stable partition:
winners in original order, then losers in original order. -/
theorem sortParticipants_eq_partition (parts : List MatchParticipant) :
    sortParticipants parts =
      parts.filter (·.has_won) ++ parts.filter (fun p => !p.has_won) := by
  classical
  set res := sortParticipants parts with hres
  have trans : ∀ a b c : MatchParticipant,
      winnersFirstLe a b → winnersFirstLe b c → winnersFirstLe a c :=
    winnersFirstLe_trans
  have total : ∀ a b : MatchParticipant,
      winnersFirstLe a b || winnersFirstLe b a := winnersFirstLe_total
  have hperm : List.Perm res parts := List.mergeSort_perm parts winnersFirstLe
  have hsorted : res.Pairwise (winnersFirstLe · ·) :=
    List.sorted_mergeSort trans total parts
  have hsplit := eq_filter_append_of_pairwise res hsorted
  -- the winners of the input form a sorted sublist, hence a sublist of the result
  have hWpair : (parts.filter (·.has_won)).Pairwise (winnersFirstLe · ·) :=
    List.pairwise_of_forall_mem_list (by
      intro a ha b _hb
      exact winnersFirstLe_of_won b (by simpa using (List.mem_filter.mp ha).2))
  have hLpair : (parts.filter (fun p => !p.has_won)).Pairwise (winnersFirstLe · ·) :=
    List.pairwise_of_forall_mem_list (by
      intro a _ha b hb
      refine winnersFirstLe_of_lost a ?_
      have := (List.mem_filter.mp hb).2
      simpa using this)
  have hWsub : List.Sublist (parts.filter (·.has_won)) res :=
    List.sublist_mergeSort trans total hWpair (List.filter_sublist parts)
  have hLsub : List.Sublist (parts.filter (fun p => !p.has_won)) res :=
    List.sublist_mergeSort trans total hLpair (List.filter_sublist parts)
  -- same multiset content, filtered: equal lengths
  have hWlen : (res.filter (·.has_won)).length = (parts.filter (·.has_won)).length :=
    (hperm.filter _).length_eq
  have hLlen : (res.filter (fun p => !p.has_won)).length =
      (parts.filter (fun p => !p.has_won)).length :=
    (hperm.filter _).length_eq
  have hWeq : parts.filter (·.has_won) = res.filter (·.has_won) := by
    have h1 : List.Sublist (parts.filter (·.has_won)) (res.filter (·.has_won)) := by
      have := hWsub.filter (·.has_won)
      rw [List.filter_filter] at this
      simpa only [Bool.and_self] using this
    exact h1.eq_of_length (by omega)
  have hLeq : parts.filter (fun p => !p.has_won) = res.filter (fun p => !p.has_won) := by
    have h1 : List.Sublist (parts.filter (fun p => !p.has_won)) (res.filter (fun p => !p.has_won)) := by
      have := hLsub.filter (fun p => !p.has_won)
      rw [List.filter_filter] at this
      simpa only [Bool.and_self] using this
    exact h1.eq_of_length (by omega)
  rw [hsplit, hWeq, hLeq]

/-- The three participants of the documented scenario: id 1 lost,
id 2 won, id 3 lost. -/
def scenarioLoser1 : MatchParticipant :=
  ⟨1, 1, "p1", none, "mario", false, 0, 0, 0, false⟩

def scenarioWinner2 : MatchParticipant :=
  ⟨2, 2, "p2", none, "link", false, 0, 0, 0, true⟩

def scenarioLoser3 : MatchParticipant :=
  ⟨3, 3, "p3", none, "kirby", false, 0, 0, 0, false⟩

/-- C6: the participant ordering of the match history view is the stable
partition by `has_won`: winners (in original order) precede losers (in
original order); in particular `[id 1 loser, id 2 winner, id 3 loser]`
orders as `[id 2, id 1, id 3]`. -/
theorem participants_winners_first (parts : List MatchParticipant) :
    sortParticipants parts =
      parts.filter (·.has_won) ++ parts.filter (fun p => !p.has_won)
    ∧ sortParticipants [scenarioLoser1, scenarioWinner2, scenarioLoser3] =
      [scenarioWinner2, scenarioLoser1, scenarioLoser3] := by
  refine ⟨sortParticipants_eq_partition parts, ?_⟩
  rw [sortParticipants_eq_partition]
  rfl

/-! ### C7: tier buckets partition the ranked sequence -/

/-- Unfolding the `forEach`: the final bucket of tier `t` is the initial
bucket followed by the players of tier `t` in list order. -/
theorem tierList_foldl_eq (tierThresholds : TierThresholds) :
    ∀ (l : List ExtendedPlayer) (acc : Tier → List ExtendedPlayer) (t : Tier),
      l.foldl
        (fun buckets p => fun u =>
          if getTier p.elo tierThresholds = u then buckets u ++ [p] else buckets u)
        acc t
      = acc t ++ l.filter (fun p => decide (getTier p.elo tierThresholds = t))
  | [], acc, t => by simp
  | p :: l, acc, t => by
    rw [List.foldl_cons, tierList_foldl_eq tierThresholds l _ t, List.filter_cons]
    by_cases h : getTier p.elo tierThresholds = t
    · simp [h]
    · simp [h]

/-- Each tier bucket is the ranked players whose tier is that label. -/
theorem tierList_eq_filter (rankedPlayers : List ExtendedPlayer)
    (tierThresholds : TierThresholds) (t : Tier) :
    tierList rankedPlayers tierThresholds t =
      rankedPlayers.filter (fun p => decide (getTier p.elo tierThresholds = t)) := by
  unfold tierList
  rw [tierList_foldl_eq]
  rfl

/-- Counting occurrences inside one tier bucket. -/
theorem count_filter_tier (l : List ExtendedPlayer) (tierThresholds : TierThresholds)
    (a : ExtendedPlayer) (t : Tier) :
    List.count a (l.filter (fun p => decide (getTier p.elo tierThresholds = t))) =
      if getTier a.elo tierThresholds = t then List.count a l else 0 := by
  by_cases h : getTier a.elo tierThresholds = t
  · rw [if_pos h, List.count_filter (by simp [h])]
  · rw [if_neg h, List.count_eq_zero_of_not_mem]
    intro hmem
    exact h (by simpa using (List.mem_filter.mp hmem).2)

/-- Concatenating the six tier buckets permutes the ranked sequence. -/
theorem tierBuckets_concat_perm (rankedPlayers : List ExtendedPlayer)
    (tierThresholds : TierThresholds) :
    List.Perm
      (tierList rankedPlayers tierThresholds .S ++ tierList rankedPlayers tierThresholds .A
        ++ tierList rankedPlayers tierThresholds .B ++ tierList rankedPlayers tierThresholds .C
        ++ tierList rankedPlayers tierThresholds .D ++ tierList rankedPlayers tierThresholds .E)
      rankedPlayers := by
  classical
  simp only [tierList_eq_filter]
  rw [List.perm_iff_count]
  intro a
  simp only [List.count_append, count_filter_tier]
  rcases h : getTier a.elo tierThresholds <;> simp [h]

/-- The ranked sequence is non-increasing in `elo`. -/
theorem sortPlayers_pairwise (ps : List ExtendedPlayer) :
    (sortPlayers ps).Pairwise (fun a b => b.elo ≤ a.elo) := by
  have h : (sortPlayers ps).Pairwise
      (fun a b : ExtendedPlayer => decide (b.elo ≤ a.elo) = true) :=
    List.sorted_mergeSort
      (fun a b c hab hbc => by
        simp only [decide_eq_true_eq] at hab hbc ⊢
        omega)
      (fun a b => by
        simp only [Bool.or_eq_true, decide_eq_true_eq]
        omega)
      ps
  exact h.imp (fun hab => by simpa using hab)

/-- The ranked sequence is a permutation of the player population. -/
theorem sortPlayers_perm (ps : List ExtendedPlayer) :
    List.Perm (sortPlayers ps) ps :=
  List.mergeSort_perm ps _

/-- C7: with the thresholds computed from the ranked sequence (as at the
call site), the tier buckets partition that sequence exhaustively and
disjointly — each bucket holds exactly the ranked players of its tier, in
ranked order, the six buckets concatenated are a permutation of the
ranked sequence, and each bucket is `elo`-descending. -/
theorem bucketByTier_partition (ps : List ExtendedPlayer) (t : Tier) :
    tierList (sortPlayers ps) (calculateTierThresholds (sortPlayers ps)) t
      = (sortPlayers ps).filter
          (fun p => decide (getTier p.elo (calculateTierThresholds (sortPlayers ps)) = t))
    ∧ List.Perm
        (tierList (sortPlayers ps) (calculateTierThresholds (sortPlayers ps)) .S
          ++ tierList (sortPlayers ps) (calculateTierThresholds (sortPlayers ps)) .A
          ++ tierList (sortPlayers ps) (calculateTierThresholds (sortPlayers ps)) .B
          ++ tierList (sortPlayers ps) (calculateTierThresholds (sortPlayers ps)) .C
          ++ tierList (sortPlayers ps) (calculateTierThresholds (sortPlayers ps)) .D
          ++ tierList (sortPlayers ps) (calculateTierThresholds (sortPlayers ps)) .E)
        (sortPlayers ps)
    ∧ (tierList (sortPlayers ps) (calculateTierThresholds (sortPlayers ps)) t).Pairwise
        (fun a b => b.elo ≤ a.elo) := by
  refine ⟨tierList_eq_filter _ _ _, tierBuckets_concat_perm _ _, ?_⟩
  rw [tierList_eq_filter]
  exact (sortPlayers_pairwise ps).filter _

/-! ### C1-C3: threshold shape, monotonicity, and classification -/

theorem headD_eq_getD (l : List ExtendedPlayer) (d : ExtendedPlayer) :
    l.headD d = l.getD 0 d := by
  cases l <;> rfl

theorem getD_mem {l : List ExtendedPlayer} {i : Nat} (h : i < l.length)
    (d : ExtendedPlayer) : l.getD i d ∈ l := by
  rw [List.getD_eq_getElem l d h]
  exact List.getElem_mem h

/-- In a rating-descending list, a later entry never has a larger `elo`. -/
theorem desc_getD {l : List ExtendedPlayer}
    (hp : l.Pairwise (fun a b => b.elo ≤ a.elo)) {i j : Nat}
    (hij : i ≤ j) (hj : j < l.length) (d : ExtendedPlayer) :
    (l.getD j d).elo ≤ (l.getD i d).elo := by
  rcases Nat.eq_or_lt_of_le hij with rfl | hlt
  · exact le_refl _
  · rw [List.getD_eq_getElem l d hj, List.getD_eq_getElem l d (Nat.lt_trans hlt hj)]
    exact List.pairwise_iff_getElem.mp hp i j (Nat.lt_trans hlt hj) hj hlt

/-- The percentile lookup index is always in bounds. -/
theorem percentile_index_lt {n : Nat} (hne : n ≠ 0) (x : Nat) :
    min (n - 1) x < n :=
  Nat.lt_of_le_of_lt (Nat.min_le_left _ _) (by omega)

theorem getPlayerAtPercentile_mem {sorted : List ExtendedPlayer}
    (hne : sorted.length ≠ 0) (k : Nat) :
    getPlayerAtPercentile sorted k ∈ sorted :=
  getD_mem (percentile_index_lt hne _) _

theorem jsOr_of_ne {v : Int} (d : Int) (h : v ≠ 0) : jsOr v d = v := by
  unfold jsOr
  rw [if_neg h]

/-- When no sampled rating is zero, the `|| default` fallbacks vanish and
the thresholds are plain index lookups. -/
theorem calculateTierThresholds_of_nonzero (sorted : List ExtendedPlayer)
    (hne : sorted.length ≠ 0) (hz : ∀ p ∈ sorted, p.elo ≠ 0) :
    calculateTierThresholds sorted =
      { S := (sorted.getD 0 dummyPlayer).elo
        A := (getPlayerAtPercentile sorted 15).elo
        B := (getPlayerAtPercentile sorted 30).elo
        C := (getPlayerAtPercentile sorted 50).elo
        D := (getPlayerAtPercentile sorted 75).elo } := by
  unfold calculateTierThresholds
  rw [if_neg hne, headD_eq_getD,
    jsOr_of_ne 2000 (hz _ (getD_mem (by omega) _)),
    jsOr_of_ne 1800 (hz _ (getPlayerAtPercentile_mem hne 15)),
    jsOr_of_ne 1600 (hz _ (getPlayerAtPercentile_mem hne 30)),
    jsOr_of_ne 1400 (hz _ (getPlayerAtPercentile_mem hne 50)),
    jsOr_of_ne 1200 (hz _ (getPlayerAtPercentile_mem hne 75))]

/-- Test players for concrete populations; only `id` and `elo` vary. -/
def testPlayer (id : Int) (elo : Int) : ExtendedPlayer :=
  ⟨id, "p", none, elo, none, none, none, none, none, 0⟩

/-- The documented ten-player scenario population. -/
def scenario10 : List ExtendedPlayer :=
  [testPlayer 1 2000, testPlayer 2 1700, testPlayer 3 1500, testPlayer 4 1300,
   testPlayer 5 1100, testPlayer 6 900, testPlayer 7 700, testPlayer 8 500,
   testPlayer 9 300, testPlayer 10 100]

/-- `scenario10` is already rating-descending, so sorting leaves it alone. -/
theorem scenario10_sorted : sortPlayers scenario10 = scenario10 :=
  List.mergeSort_of_sorted (by decide)

/-- A two-player population whose weaker player has rating 0. -/
def popWithZero : List ExtendedPlayer := [testPlayer 1 1000, testPlayer 2 0]

theorem popWithZero_sorted : sortPlayers popWithZero = popWithZero :=
  List.mergeSort_of_sorted (by decide)

/-- A single player with rating 0. -/
def zeroEloPop : List ExtendedPlayer := [testPlayer 1 0]

theorem zeroEloPop_sorted : sortPlayers zeroEloPop = zeroEloPop :=
  List.mergeSort_of_sorted (by decide)

/-- C1 counterexample: for the non-empty population
`[{elo: 1000}, {elo: 0}]` the computed thresholds are
`S=1000, A=1000, B=1000, C=1400, D=1200` — the percentile lookups at
indices 1 hit the rating 0, which is falsy in JS, so the `|| 1400` /
`|| 1200` defaults replace it and `B < C`: the thresholds are not
non-increasing. -/
theorem thresholds_not_monotone_cex :
    popWithZero.length = 2
    ∧ calculateTierThresholds (sortPlayers popWithZero) = ⟨1000, 1000, 1000, 1400, 1200⟩
    ∧ (calculateTierThresholds (sortPlayers popWithZero)).B
        < (calculateTierThresholds (sortPlayers popWithZero)).C := by
  rw [popWithZero_sorted]
  exact ⟨rfl, by decide, by decide⟩

/-- C1 (amended): for every non-empty population in which no player's
rating is 0 (so no `|| default` fallback fires), the computed thresholds
satisfy `S ≥ A ≥ B ≥ C ≥ D`. -/
theorem thresholds_nonincreasing (ps : List ExtendedPlayer)
    (hne : ps.length ≠ 0) (hz : ∀ p ∈ ps, p.elo ≠ 0) :
    (calculateTierThresholds (sortPlayers ps)).S ≥ (calculateTierThresholds (sortPlayers ps)).A
    ∧ (calculateTierThresholds (sortPlayers ps)).A ≥ (calculateTierThresholds (sortPlayers ps)).B
    ∧ (calculateTierThresholds (sortPlayers ps)).B ≥ (calculateTierThresholds (sortPlayers ps)).C
    ∧ (calculateTierThresholds (sortPlayers ps)).C ≥ (calculateTierThresholds (sortPlayers ps)).D := by
  have hlen : (sortPlayers ps).length = ps.length := (sortPlayers_perm ps).length_eq
  have hne' : (sortPlayers ps).length ≠ 0 := by omega
  have hz' : ∀ p ∈ sortPlayers ps, p.elo ≠ 0 :=
    fun p hp => hz p ((sortPlayers_perm ps).mem_iff.mp hp)
  have hp := sortPlayers_pairwise ps
  rw [calculateTierThresholds_of_nonzero _ hne' hz']
  unfold getPlayerAtPercentile
  have hmono : ∀ k k' : Nat, k ≤ k' →
      min ((sortPlayers ps).length - 1) (k * (sortPlayers ps).length / 100)
        ≤ min ((sortPlayers ps).length - 1) (k' * (sortPlayers ps).length / 100) := by
    intro k k' hk
    have : k * (sortPlayers ps).length ≤ k' * (sortPlayers ps).length :=
      Nat.mul_le_mul_right _ hk
    exact min_le_min (le_refl _) (Nat.div_le_div_right this)
  refine ⟨?_, ?_, ?_, ?_⟩
  · exact desc_getD hp (Nat.zero_le _) (percentile_index_lt hne' _) _
  · exact desc_getD hp (hmono 15 30 (by omega)) (percentile_index_lt hne' _) _
  · exact desc_getD hp (hmono 30 50 (by omega)) (percentile_index_lt hne' _) _
  · exact desc_getD hp (hmono 50 75 (by omega)) (percentile_index_lt hne' _) _

/-- Witness for the amended C1: the ten-player scenario population. -/
theorem thresholds_nonincreasing_witness :
    (calculateTierThresholds (sortPlayers scenario10)).S ≥ (calculateTierThresholds (sortPlayers scenario10)).A
    ∧ (calculateTierThresholds (sortPlayers scenario10)).A ≥ (calculateTierThresholds (sortPlayers scenario10)).B
    ∧ (calculateTierThresholds (sortPlayers scenario10)).B ≥ (calculateTierThresholds (sortPlayers scenario10)).C
    ∧ (calculateTierThresholds (sortPlayers scenario10)).C ≥ (calculateTierThresholds (sortPlayers scenario10)).D :=
  thresholds_nonincreasing scenario10 (by decide) (by decide)

/-- `getTier` returns `S` as soon as the rating meets the `S` threshold. -/
theorem getTier_S_of_ge {elo : Int} {ts : TierThresholds} (h : elo ≥ ts.S) :
    getTier elo ts = Tier.S := by
  unfold getTier
  rw [if_pos h]

/-- The `S` threshold is the head rating run through the `|| 2000` fallback. -/
theorem thresholds_S_eq (sorted : List ExtendedPlayer) (hne : sorted.length ≠ 0) :
    (calculateTierThresholds sorted).S = jsOr (sorted.headD dummyPlayer).elo 2000 := by
  unfold calculateTierThresholds
  rw [if_neg hne]

/-- C2 counterexample: in the one-player population `[{elo: 0}]` the
top-rated player is that player, yet it is classified `E`: its falsy
rating makes `S` fall back to 2000 (and `A..D` to their defaults), all
above 0. -/
theorem classify_top_cex :
    (sortPlayers zeroEloPop).headD dummyPlayer = testPlayer 1 0
    ∧ getTier (testPlayer 1 0).elo (calculateTierThresholds (sortPlayers zeroEloPop)) = Tier.E := by
  rw [zeroEloPop_sorted]
  exact ⟨rfl, by decide⟩

/-- C2 (amended): `classify` always lands in exactly one of the six tiers
(it is a total function into `{S,A,B,C,D,E}`), and for every non-empty
population the top-ranked player — the head of the rating-descending
order, whose rating bounds every player's rating — is classified `S`
provided its rating is not 0 (the falsy value that triggers the
`|| 2000` fallback). -/
theorem classify_unique_and_top (elo : Int) (ts : TierThresholds)
    (ps : List ExtendedPlayer) :
    (getTier elo ts = Tier.S ∨ getTier elo ts = Tier.A ∨ getTier elo ts = Tier.B
      ∨ getTier elo ts = Tier.C ∨ getTier elo ts = Tier.D ∨ getTier elo ts = Tier.E)
    ∧ (ps.length ≠ 0 → ((sortPlayers ps).headD dummyPlayer).elo ≠ 0 →
        (∀ q ∈ ps, q.elo ≤ ((sortPlayers ps).headD dummyPlayer).elo)
        ∧ getTier ((sortPlayers ps).headD dummyPlayer).elo
            (calculateTierThresholds (sortPlayers ps)) = Tier.S) := by
  constructor
  · unfold getTier
    split
    · exact Or.inl rfl
    split
    · exact Or.inr (Or.inl rfl)
    split
    · exact Or.inr (Or.inr (Or.inl rfl))
    split
    · exact Or.inr (Or.inr (Or.inr (Or.inl rfl)))
    split
    · exact Or.inr (Or.inr (Or.inr (Or.inr (Or.inl rfl))))
    · exact Or.inr (Or.inr (Or.inr (Or.inr (Or.inr rfl))))
  · intro hne hz
    have hlen : (sortPlayers ps).length = ps.length := (sortPlayers_perm ps).length_eq
    have hne' : (sortPlayers ps).length ≠ 0 := by omega
    have hp := sortPlayers_pairwise ps
    constructor
    · intro q hq
      have hq' : q ∈ sortPlayers ps := (sortPlayers_perm ps).mem_iff.mpr hq
      rcases hsorted : sortPlayers ps with _ | ⟨hd, tl⟩
      · rw [hsorted] at hne'
        simp at hne'
      · rw [hsorted] at hq' hp
        have hhd := (List.pairwise_cons.mp hp).1
        rcases List.mem_cons.mp hq' with rfl | hmem
        · simp
        · simpa using hhd q hmem
    · refine getTier_S_of_ge ?_
      rw [thresholds_S_eq _ hne', jsOr_of_ne 2000 hz]

/-- Witness for the amended C2: the ten-player scenario population and an
arbitrary rating/threshold pair for the totality conjunct. -/
theorem classify_unique_and_top_witness :
    (getTier 1000 ⟨2000, 1700, 1300, 900, 500⟩ = Tier.S
      ∨ getTier 1000 ⟨2000, 1700, 1300, 900, 500⟩ = Tier.A
      ∨ getTier 1000 ⟨2000, 1700, 1300, 900, 500⟩ = Tier.B
      ∨ getTier 1000 ⟨2000, 1700, 1300, 900, 500⟩ = Tier.C
      ∨ getTier 1000 ⟨2000, 1700, 1300, 900, 500⟩ = Tier.D
      ∨ getTier 1000 ⟨2000, 1700, 1300, 900, 500⟩ = Tier.E)
    ∧ ((∀ q ∈ scenario10, q.elo ≤ ((sortPlayers scenario10).headD dummyPlayer).elo)
        ∧ getTier ((sortPlayers scenario10).headD dummyPlayer).elo
            (calculateTierThresholds (sortPlayers scenario10)) = Tier.S) :=
  ⟨(classify_unique_and_top 1000 ⟨2000, 1700, 1300, 900, 500⟩ scenario10).1,
    (classify_unique_and_top 1000 ⟨2000, 1700, 1300, 900, 500⟩ scenario10).2
      (by decide) (by rw [scenario10_sorted]; decide)⟩

/-- C3 counterexample: the ten-player scenario yields exactly the claimed
thresholds `A=1700, B=1300, C=900, D=500`, but the player with rating 1000
is classified `C`, not `D`: `getTier` checks `C` before `D` and
`1000 ≥ 900` already holds. -/
theorem scenario_classification_cex :
    calculateTierThresholds (sortPlayers scenario10) = ⟨2000, 1700, 1300, 900, 500⟩
    ∧ getTier 1000 (calculateTierThresholds (sortPlayers scenario10)) = Tier.C := by
  rw [scenario10_sorted]
  exact ⟨by decide, by decide⟩

/-- C3 (amended): for every non-empty population in which no rating is 0,
the thresholds are the ratings of the rating-descending sequence at the
indices `0`, `floor(0.15N)`, `floor(0.30N)`, `floor(0.50N)`,
`floor(0.75N)`, each clamped to `N-1`; in the ten-player scenario this
gives `A=1700, B=1300, C=900, D=500`, and the player with rating 1000
classifies as `C`. -/
theorem thresholds_formula (ps : List ExtendedPlayer)
    (hne : ps.length ≠ 0) (hz : ∀ p ∈ ps, p.elo ≠ 0) :
    calculateTierThresholds (sortPlayers ps) =
      { S := ((sortPlayers ps).getD 0 dummyPlayer).elo
        A := ((sortPlayers ps).getD (min (ps.length - 1) (15 * ps.length / 100)) dummyPlayer).elo
        B := ((sortPlayers ps).getD (min (ps.length - 1) (30 * ps.length / 100)) dummyPlayer).elo
        C := ((sortPlayers ps).getD (min (ps.length - 1) (50 * ps.length / 100)) dummyPlayer).elo
        D := ((sortPlayers ps).getD (min (ps.length - 1) (75 * ps.length / 100)) dummyPlayer).elo }
    ∧ calculateTierThresholds (sortPlayers scenario10) = ⟨2000, 1700, 1300, 900, 500⟩
    ∧ getTier 1000 (calculateTierThresholds (sortPlayers scenario10)) = Tier.C := by
  refine ⟨?_, ?_, ?_⟩
  · have hlen : (sortPlayers ps).length = ps.length := (sortPlayers_perm ps).length_eq
    have hne' : (sortPlayers ps).length ≠ 0 := by omega
    have hz' : ∀ p ∈ sortPlayers ps, p.elo ≠ 0 :=
      fun p hp => hz p ((sortPlayers_perm ps).mem_iff.mp hp)
    rw [calculateTierThresholds_of_nonzero _ hne' hz']
    unfold getPlayerAtPercentile
    rw [hlen]
  · rw [scenario10_sorted]
    decide
  · rw [scenario10_sorted]
    decide

/-- Witness for the amended C3: the ten-player scenario population also
instantiates the universal part. -/
theorem thresholds_formula_witness :
    calculateTierThresholds (sortPlayers scenario10) =
      { S := ((sortPlayers scenario10).getD 0 dummyPlayer).elo
        A := ((sortPlayers scenario10).getD
          (min (scenario10.length - 1) (15 * scenario10.length / 100)) dummyPlayer).elo
        B := ((sortPlayers scenario10).getD
          (min (scenario10.length - 1) (30 * scenario10.length / 100)) dummyPlayer).elo
        C := ((sortPlayers scenario10).getD
          (min (scenario10.length - 1) (50 * scenario10.length / 100)) dummyPlayer).elo
        D := ((sortPlayers scenario10).getD
          (min (scenario10.length - 1) (75 * scenario10.length / 100)) dummyPlayer).elo }
    ∧ calculateTierThresholds (sortPlayers scenario10) = ⟨2000, 1700, 1300, 900, 500⟩
    ∧ getTier 1000 (calculateTierThresholds (sortPlayers scenario10)) = Tier.C :=
  thresholds_formula scenario10 (by decide) (by decide)

/-- Witness for C10 at a concrete event sequence and tick value. -/
theorem countdown_invariant_witness :
    countdownRun [] = 30
    ∧ 1 ≤ countdownRun [CountdownEvent.second, CountdownEvent.refresh true,
        CountdownEvent.second]
    ∧ countdownRun [CountdownEvent.second, CountdownEvent.refresh true,
        CountdownEvent.second] ≤ 30
    ∧ countdownRun [CountdownEvent.second, CountdownEvent.refresh true,
        CountdownEvent.second] ≠ 0
    ∧ refreshReset false 7 = 30
    ∧ countdownTick 7 = (if (1 : Int) < 7 then 7 - 1 else 30) :=
  countdown_invariant
    [CountdownEvent.second, CountdownEvent.refresh true, CountdownEvent.second] false 7
